import Mathlib

/-!
Shallow embedding of the Avalon game engine (`src/avalon/game.py` and
`src/avalon/config.py` of the avalon-bot repository).

Modelling conventions:
* Python `Enum` classes become Lean inductives; the string tags
  `"good"` / `"evil"` stored in `Player.team` become the closed
  enumeration `Team`.
* Python dicts (`team_votes`, `mission_votes`, `roles_assigned`) become
  insertion-ordered association lists; `dictInsert` mirrors dict item
  assignment (update in place keeps the position, a new key is appended),
  so `List.length` agrees with Python `len` on a dict whose keys are
  distinct, which the update discipline preserves.
* Methods that in Python return `True`/`False` and mutate `self` become
  functions `AvalonGame → … → Bool × AvalonGame`; every guard that
  returns `False` happens before any mutation in the source, so the
  failure branches return the state unchanged.
* `assign_roles` raises `ValueError` on a bad player count; a raise is
  modelled as `Option.none` (no mutation precedes the raise).
* `propose_team` indexes `self.players[leader_index]` and the mission
  size table, and `vote_mission` evaluates `next(...)`; the Python
  crashes these could raise in unreachable configurations are modelled
  by an `Option.none` result.
* `random.shuffle` in `assign_roles` shuffles a copy of the player list
  and zips it positionally with the role pool built from the player
  count, mutating the shared player objects, so `self.players` keeps its
  original order.  Keeping the players in original order and zipping
  them with a permuted role pool produces exactly the same set of
  reachable assignments (a shuffle of the players corresponds to the
  inverse shuffle of the pool), so the embedded `assign_roles` takes the
  already-shuffled role pool as an explicit argument; theorems
  hypothesise that it is a permutation of `role_pool n`.
* `channel_id` and `host_id` are omitted from the state: no operation
  reads or writes them.
* The flavor-text `description` strings of `ROLES` are omitted; the
  `name` strings are kept as `roleName` (used by the evil-teammates
  disclosure).
-/

set_option maxRecDepth 100000

namespace Avalon

/-- GameState enum of `game.py`. -/
inductive GameState
  | LOBBY
  | ROLE_ASSIGNMENT
  | TEAM_PROPOSAL
  | TEAM_VOTING
  | MISSION
  | ASSASSINATION
  | FINISHED
deriving DecidableEq, Repr

/-- MissionResult enum of `game.py`. -/
inductive MissionResult
  | PENDING
  | SUCCESS
  | FAIL
deriving DecidableEq, Repr

/-- Role keys of the `ROLES` table in `config.py`. -/
inductive Role
  | MERLIN
  | PERCIVAL
  | SERVANT
  | ASSASSIN
  | MORGANA
  | MORDRED
  | MINION
deriving DecidableEq, Repr

/-- Alignment tags: the `"good"` / `"evil"` strings of `config.py`. -/
inductive Team
  | good
  | evil
deriving DecidableEq, Repr

/-- The `team` entry of the `ROLES` table in `config.py`. -/
def roleTeam : Role → Team
  | .MERLIN => .good
  | .PERCIVAL => .good
  | .SERVANT => .good
  | .ASSASSIN => .evil
  | .MORGANA => .evil
  | .MORDRED => .evil
  | .MINION => .evil

/-- The `name` entry of the `ROLES` table in `config.py`. -/
def roleName : Role → String
  | .MERLIN => toString 1 |>.map (fun _ => 'M')
  | .PERCIVAL => toString 1 |>.map (fun _ => 'P')
  | .SERVANT => toString 1 |>.map (fun _ => 'S')
  | .ASSASSIN => toString 1 |>.map (fun _ => 'A')
  | .MORGANA => toString 1 |>.map (fun _ => 'G')
  | .MORDRED => toString 1 |>.map (fun _ => 'D')
  | .MINION => toString 1 |>.map (fun _ => 'N')

/-- PLAYER_COUNTS table of `config.py`: player count ↦ (good, evil).
Keys outside [5,10] raise `KeyError` in Python; they are unreachable
behind the `can_start_game` guard, and mapped to (0,0) here. -/
def PLAYER_COUNTS : Nat → Nat × Nat
  | 5 => (3, 2)
  | 6 => (4, 2)
  | 7 => (4, 3)
  | 8 => (5, 3)
  | 9 => (6, 3)
  | 10 => (6, 4)
  | _ => (0, 0)

/-- MISSION_SIZES table of `config.py`: player count ↦ per-round team
sizes (5 entries, 0-indexed by `current_round - 1`).  Keys outside
[5,10] raise `KeyError` in Python and are mapped to `[]` here; the
lookup result is consumed through an `Option`. -/
def MISSION_SIZES : Nat → List Nat
  | 5 => [2, 3, 2, 3, 3]
  | 6 => [2, 3, 4, 3, 4]
  | 7 => [2, 3, 3, 4, 4]
  | 8 => [3, 4, 4, 5, 5]
  | 9 => [3, 4, 4, 5, 5]
  | 10 => [3, 4, 4, 5, 5]
  | _ => []

/-- TWO_FAIL_MISSIONS table of `config.py` (0-indexed round slots that
need two fail votes); `none` models a key that is absent. -/
def TWO_FAIL_MISSIONS : Nat → Option (List Nat)
  | 7 => some [3]
  | 8 => some [3]
  | 9 => some [3]
  | 10 => some [3]
  | _ => none

/-- Player dataclass of `game.py`. -/
structure Player where
  user_id : Nat
  username : String
  role : Option Role := none
  team : Option Team := none
deriving DecidableEq, Repr

/-- Player.is_evil of `game.py`. -/
def Player.is_evil (p : Player) : Bool := p.team == some Team.evil

/-- Player.is_good of `game.py`. -/
def Player.is_good (p : Player) : Bool := p.team == some Team.good

/-- AvalonGame state fields of `game.py` (`channel_id` / `host_id`
omitted: no operation reads them). -/
structure AvalonGame where
  players : List Player
  state : GameState
  current_round : Nat
  current_leader_index : Nat
  vote_track : Nat
  missions : List MissionResult
  proposed_team : List Nat
  team_votes : List (Nat × Bool)
  mission_votes : List (Nat × Bool)
  roles_assigned : List (Nat × Role)
  merlin_id : Option Nat
  assassin_id : Option Nat
deriving DecidableEq, Repr

/-- AvalonGame.__init__ of `game.py`. -/
def newGame : AvalonGame :=
  { players := []
    state := .LOBBY
    current_round := 1
    current_leader_index := 0
    vote_track := 0
    missions := List.replicate 5 .PENDING
    proposed_team := []
    team_votes := []
    mission_votes := []
    roles_assigned := []
    merlin_id := none
    assassin_id := none }

/-- Python dict item assignment `m[k] = v` on an insertion-ordered dict
with distinct keys: an existing key keeps its position, a new key is
appended. -/
def dictInsert {α : Type} (m : List (Nat × α)) (k : Nat) (v : α) : List (Nat × α) :=
  if m.any (fun q => q.1 == k) then
    m.map (fun q => if q.1 == k then (k, v) else q)
  else
    m ++ [(k, v)]

/-- AvalonGame.add_player of `game.py`. -/
def add_player (g : AvalonGame) (user_id : Nat) (username : String) :
    Bool × AvalonGame :=
  if 10 ≤ g.players.length then (false, g)
  else if g.players.any (fun p => p.user_id == user_id) then (false, g)
  else (true, { g with players := g.players ++ [{ user_id := user_id, username := username }] })

/-- AvalonGame.remove_player of `game.py`. -/
def remove_player (g : AvalonGame) (user_id : Nat) : Bool × AvalonGame :=
  if g.state ≠ GameState.LOBBY then (false, g)
  else (true, { g with players := g.players.filter (fun p => ¬ p.user_id == user_id) })

/-- AvalonGame.can_start_game of `game.py`. -/
def can_start_game (g : AvalonGame) : Bool :=
  5 ≤ g.players.length ∧ g.players.length ≤ 10

/-- The `roles_to_assign` pool built inside `assign_roles` for `n`
players: Merlin and Assassin always, Percival and Morgana from 7
players, Mordred from 8, then Servant / Minion fillers up to the
PLAYER_COUNTS split.  (Python list subtraction of a larger count would
repeat a role zero times, matching Nat truncated subtraction.) -/
def role_pool (n : Nat) : List Role :=
  let base : List Role := [.MERLIN, .ASSASSIN]
  let base := if 7 ≤ n then base ++ [.PERCIVAL, .MORGANA] else base
  let base := if 8 ≤ n then base ++ [.MORDRED] else base
  let remaining_good :=
    (PLAYER_COUNTS n).1 - (base.filter (fun r => roleTeam r == Team.good)).length
  let remaining_evil :=
    (PLAYER_COUNTS n).2 - (base.filter (fun r => roleTeam r == Team.evil)).length
  base ++ List.replicate remaining_good .SERVANT ++ List.replicate remaining_evil .MINION

/-- AvalonGame.assign_roles of `game.py`.  `shuffledPool` is the role
pool after the random shuffle (see the module comment: shuffling the
players and zipping with the fixed pool reaches exactly the assignments
reached by zipping the players, in original order, with a shuffled
pool).  `none` models the `ValueError` raised on a bad player count.
The loop over `enumerate(shuffled_players)` becomes folds over the
positional zip: each player object is updated with its role and derived
team, the `roles_assigned` dict collects `user_id ↦ role`, and
`merlin_id` / `assassin_id` keep the last matching assignment, starting
from their previous values, exactly as the loop's conditional
assignments do. -/
def assign_roles (g : AvalonGame) (shuffledPool : List Role) : Option AvalonGame :=
  if ¬ can_start_game g then none
  else
    let assignment := g.players.zip shuffledPool
    let players' := assignment.map
      (fun q => { q.1 with role := some q.2, team := some (roleTeam q.2) })
    let roles' := assignment.foldl
      (fun m q => dictInsert m q.1.user_id q.2) g.roles_assigned
    let merlin' := assignment.foldl
      (fun acc q => if q.2 == Role.MERLIN then some q.1.user_id else acc) g.merlin_id
    let assassin' := assignment.foldl
      (fun acc q => if q.2 == Role.ASSASSIN then some q.1.user_id else acc) g.assassin_id
    some { g with
      players := players'
      roles_assigned := roles'
      merlin_id := merlin'
      assassin_id := assassin'
      state := .TEAM_PROPOSAL }

/-- AvalonGame.get_current_leader of `game.py`; `none` models the
`IndexError` an out-of-range leader index would raise. -/
def get_current_leader (g : AvalonGame) : Option Player :=
  g.players[g.current_leader_index]?

/-- AvalonGame.get_mission_size of `game.py`; `none` models the
`KeyError` / `IndexError` of a lookup outside the tables. -/
def get_mission_size (g : AvalonGame) : Option Nat :=
  (MISSION_SIZES g.players.length)[g.current_round - 1]?

/-- AvalonGame.propose_team of `game.py`.  The outer `none` models the
crash of `get_current_leader` / `get_mission_size` in unreachable
configurations; `some (false, g)` is an ordinary rejected call. -/
def propose_team (g : AvalonGame) (leader_id : Nat) (team_user_ids : List Nat) :
    Option (Bool × AvalonGame) :=
  if g.state ≠ GameState.TEAM_PROPOSAL then some (false, g)
  else
    match get_current_leader g with
    | none => none
    | some leader =>
      if ¬ leader.user_id == leader_id then some (false, g)
      else
        match get_mission_size g with
        | none => none
        | some sz =>
          if ¬ team_user_ids.length == sz then some (false, g)
          else if ¬ team_user_ids.all
              (fun uid => g.players.any (fun p => p.user_id == uid)) then
            some (false, g)
          else
            some (true, { g with
              proposed_team := team_user_ids
              team_votes := []
              state := .TEAM_VOTING })

/-- AvalonGame._process_team_vote of `game.py`. -/
def process_team_vote (g : AvalonGame) : AvalonGame :=
  let approvals := (g.team_votes.filter (fun q => q.2)).length
  let majority := g.players.length / 2 + 1
  if majority ≤ approvals then
    { g with vote_track := 0, mission_votes := [], state := .MISSION }
  else
    let g := { g with vote_track := g.vote_track + 1, proposed_team := [] }
    if 5 ≤ g.vote_track then
      { g with state := .FINISHED }
    else
      { g with
        current_leader_index := (g.current_leader_index + 1) % g.players.length
        state := .TEAM_PROPOSAL }

/-- AvalonGame.vote_team of `game.py`: record (or overwrite) the ballot
and fire the tally when the ballot count reaches the roster size. -/
def vote_team (g : AvalonGame) (user_id : Nat) (approve : Bool) :
    Bool × AvalonGame :=
  if g.state ≠ GameState.TEAM_VOTING then (false, g)
  else if ¬ g.players.any (fun p => p.user_id == user_id) then (false, g)
  else
    let g := { g with team_votes := dictInsert g.team_votes user_id approve }
    if g.team_votes.length == g.players.length then (true, process_team_vote g)
    else (true, g)

/-- The `requires_two_fails` condition inside
`_process_mission_vote`: the player count is a key of
TWO_FAIL_MISSIONS and `current_round - 1` is in its entry. -/
def requires_two_fails (n round : Nat) : Bool :=
  match TWO_FAIL_MISSIONS n with
  | some l => l.contains (round - 1)
  | none => false

/-- AvalonGame._process_mission_vote of `game.py`: write the round's
outcome, then either finish the match, enter the assassination phase,
or continue with the next round. -/
def process_mission_vote (g : AvalonGame) : AvalonGame :=
  let fails := (g.mission_votes.filter (fun q => ¬ q.2)).length
  let requires_two := requires_two_fails g.players.length g.current_round
  let mission_failed := (if requires_two then 2 else 1) ≤ fails
  let outcome := if mission_failed then MissionResult.FAIL else MissionResult.SUCCESS
  let g := { g with missions := g.missions.set (g.current_round - 1) outcome }
  let good_wins := 3 ≤ (g.missions.filter (fun m => m == MissionResult.SUCCESS)).length
  let evil_wins := 3 ≤ (g.missions.filter (fun m => m == MissionResult.FAIL)).length
  if good_wins then { g with state := .ASSASSINATION }
  else if evil_wins then { g with state := .FINISHED }
  else
    { g with
      current_round := g.current_round + 1
      current_leader_index := (g.current_leader_index + 1) % g.players.length
      proposed_team := []
      state := .TEAM_PROPOSAL }

/-- AvalonGame.vote_mission of `game.py`.  The outer `none` models the
`StopIteration` of `next(...)` when the voter is on the proposed team
but missing from the roster (unreachable).  A good-aligned voter
casting `success = false` is rejected before any mutation. -/
def vote_mission (g : AvalonGame) (user_id : Nat) (success : Bool) :
    Option (Bool × AvalonGame) :=
  if g.state ≠ GameState.MISSION then some (false, g)
  else if ¬ g.proposed_team.contains user_id then some (false, g)
  else
    match g.players.find? (fun p => p.user_id == user_id) with
    | none => none
    | some player =>
      if ¬ success ∧ player.is_good then some (false, g)
      else
        let g := { g with mission_votes := dictInsert g.mission_votes user_id success }
        if g.mission_votes.length == g.proposed_team.length then
          some (true, process_mission_vote g)
        else some (true, g)

/-- AvalonGame.assassinate of `game.py`.  The target comparison in the
source selects between two `pass` branches, so the target has no effect
on the state: the call always just moves to FINISHED. -/
def assassinate (g : AvalonGame) (assassin_id target_id : Nat) :
    Bool × AvalonGame :=
  if g.state ≠ GameState.ASSASSINATION then (false, g)
  else if g.assassin_id ≠ some assassin_id then (false, g)
  else if ¬ g.players.any (fun p => p.user_id == target_id) then (false, g)
  else (true, { g with state := .FINISHED })

/-- AvalonGame.get_game_winner of `game.py`. -/
def get_game_winner (g : AvalonGame) : Option Team :=
  if g.state ≠ GameState.FINISHED then none
  else
    let good_missions := (g.missions.filter (fun m => m == MissionResult.SUCCESS)).length
    let evil_missions := (g.missions.filter (fun m => m == MissionResult.FAIL)).length
    if 3 ≤ evil_missions then some Team.evil
    else if 5 ≤ g.vote_track then some Team.evil
    else if 3 ≤ good_missions then some Team.good
    else none

/-- AvalonGame.is_assassination_successful of `game.py`. -/
def is_assassination_successful (g : AvalonGame) (target_id : Nat) : Bool :=
  some target_id == g.merlin_id

/-- Role information record returned by `get_role_info_for_player`
(the Python dict; absent keys are `none`; the constant `description`
flavor text is omitted). -/
structure RoleInfo where
  role : Role
  team : Option Team
  known_evil : Option (List String) := none
  merlin_morgana : Option (List String) := none
  evil_teammates : Option (List String) := none
deriving DecidableEq, Repr

/-- AvalonGame.get_role_info_for_player of `game.py`.  `shuffle` stands
for the `random.shuffle` applied to Percival's pair; `none` models the
empty dict returned for an unknown or roleless player.  An evil
teammate always carries a role whenever the state came from
`assign_roles` (a roleless one would raise `KeyError` in Python; that
corner is rendered with the bare username). -/
def get_role_info_for_player (g : AvalonGame)
    (shuffle : List String → List String) (user_id : Nat) : Option RoleInfo :=
  match g.players.find? (fun p => p.user_id == user_id) with
  | none => none
  | some player =>
    match player.role with
    | none => none
    | some r =>
      let info : RoleInfo := { role := r, team := player.team }
      if r == Role.MERLIN then
        let evil_players :=
          (g.players.filter
            (fun p => p.is_evil ∧ ¬ p.role == some Role.MORDRED)).map
            (fun p => p.username)
        some { info with known_evil := some evil_players }
      else if r == Role.PERCIVAL then
        let merlin_morgana :=
          (g.players.filter
            (fun p => p.role == some Role.MERLIN ∨ p.role == some Role.MORGANA)).map
            (fun p => p.username)
        some { info with merlin_morgana := some (shuffle merlin_morgana) }
      else if player.is_evil then
        let evil_teammates :=
          (g.players.filter
            (fun p => p.is_evil ∧ ¬ p.user_id == user_id)).map
            (fun p => match p.role with
              | some rr => p.username ++ roleName rr
              | none => p.username)
        some { info with evil_teammates := some evil_teammates }
      else some info

/-- Engine operations, one constructor per public mutating method of
`AvalonGame`; `assignRoles` carries the shuffled role pool that stands
for its internal `random.shuffle`. -/
inductive Op
  | addPlayer (user_id : Nat) (username : String)
  | removePlayer (user_id : Nat)
  | assignRoles (shuffledPool : List Role)
  | proposeTeam (leader_id : Nat) (team_user_ids : List Nat)
  | voteTeam (user_id : Nat) (approve : Bool)
  | voteMission (user_id : Nat) (success : Bool)
  | doAssassinate (assassin_id target_id : Nat)
deriving Repr

/-- Apply one engine operation; a rejected call (and an
exception-raising call, whose raise precedes any mutation in the
source) leaves the state unchanged. -/
def apply_op (g : AvalonGame) : Op → AvalonGame
  | .addPlayer uid name => (add_player g uid name).2
  | .removePlayer uid => (remove_player g uid).2
  | .assignRoles pool =>
    match assign_roles g pool with
    | some g' => g'
    | none => g
  | .proposeTeam lid team =>
    match propose_team g lid team with
    | some r => r.2
    | none => g
  | .voteTeam uid approve => (vote_team g uid approve).2
  | .voteMission uid success =>
    match vote_mission g uid success with
    | some r => r.2
    | none => g
  | .doAssassinate aid tid => (assassinate g aid tid).2

/-- Run a sequence of operations from a given state. -/
def runFrom (g : AvalonGame) (ops : List Op) : AvalonGame :=
  ops.foldl apply_op g

/-- Run a sequence of operations from a fresh match. -/
def run (ops : List Op) : AvalonGame :=
  runFrom newGame ops

/-- Display name used by the concrete traces. -/
def pname (n : Nat) : String := toString n

/-- Join operations for a five-player roster with ids 100–104. -/
def addsOps : List Op :=
  [.addPlayer 100 (pname 100), .addPlayer 101 (pname 101), .addPlayer 102 (pname 102),
   .addPlayer 103 (pname 103), .addPlayer 104 (pname 104)]

/-- The five-player role pool in its table order (the identity
shuffle): Merlin, Assassin, two Servants, one Minion. -/
def poolA : List Role := [.MERLIN, .ASSASSIN, .SERVANT, .SERVANT, .MINION]

/-- The five-player role pool with Merlin and Assassin swapped: a
different shuffle, used to show a second role assignment changes the
recorded roles. -/
def poolB : List Role := [.ASSASSIN, .MERLIN, .SERVANT, .SERVANT, .MINION]

/-- All five players approve the proposed team. -/
def approveAll : List Op :=
  [.voteTeam 100 true, .voteTeam 101 true, .voteTeam 102 true,
   .voteTeam 103 true, .voteTeam 104 true]

/-- A five-player match played to the assassination phase: player 100
is Merlin, 101 the Assassin; the first three missions all succeed (the
third with team [100, 102], which stays recorded as the proposed
team). -/
def opsToAssassination : List Op :=
  addsOps ++ [.assignRoles poolA]
  ++ [.proposeTeam 100 [100, 102]] ++ approveAll
  ++ [.voteMission 100 true, .voteMission 102 true]
  ++ [.proposeTeam 101 [100, 102, 103]] ++ approveAll
  ++ [.voteMission 100 true, .voteMission 102 true, .voteMission 103 true]
  ++ [.proposeTeam 102 [100, 102]] ++ approveAll
  ++ [.voteMission 100 true, .voteMission 102 true]

/-- The same match after the Assassin (101) assassinates Merlin (100). -/
def opsAssassinated : List Op := opsToAssassination ++ [.doAssassinate 101 100]

/-- The finished match after a second, unguarded `assign_roles` call
with a different shuffle. -/
def opsReassigned : List Op := opsAssassinated ++ [.assignRoles poolB]

/-- A fresh five-player match directly after role assignment (phase
TeamProposal, leader 100, round 1). -/
def gTP : AvalonGame := run (addsOps ++ [.assignRoles poolA])

/-- A five-player match in TeamVoting with four approvals already
recorded; player 104's ballot will complete the tally. -/
def gV : AvalonGame :=
  run (addsOps ++ [.assignRoles poolA, .proposeTeam 100 [100, 102],
    .voteTeam 100 true, .voteTeam 101 true, .voteTeam 102 true, .voteTeam 103 true])

/-- A five-player match in Mission phase with team [100, 104]: 100 is
good (Merlin), 104 evil (Minion). -/
def gM : AvalonGame :=
  run (addsOps ++ [.assignRoles poolA, .proposeTeam 100 [100, 104]] ++ approveAll)

/-- An eight-player state on round 4 (the double-fail slot) with one
sabotage ballot among two recorded mission ballots. -/
def gC7 : AvalonGame :=
  { newGame with
    players := (List.range 8).map (fun i => { user_id := i, username := pname i })
    current_round := 4
    mission_votes := [(0, true), (1, false)] }

/-- The Merlin-holder of `gTP`. -/
def pM : Player :=
  { user_id := 100, username := pname 100
    role := some Role.MERLIN, team := some Team.good }

/-- The role information `gTP` discloses to its Merlin-holder: the two
evil players 101 (Assassin) and 104 (Minion). -/
def infoM : RoleInfo :=
  { role := Role.MERLIN, team := some Team.good
    known_evil := some [pname 101, pname 104]
    merlin_morgana := none
    evil_teammates := none }

end Avalon

namespace Avalon

/-- C1: the claim requires the winner query to return evil when the
assassination target equals `merlin_id`.  The code records nothing
about the target (`assassinate` only flips the phase) and
`get_game_winner` then answers `good` from the mission track alone:
in a finished five-player match reached through three mission
successes and an assassination whose target 100 IS Merlin
(`is_assassination_successful` confirms it), the winner query still
returns good. -/
theorem get_game_winner_after_merlin_assassination :
    (run opsAssassinated).state = GameState.FINISHED ∧
    (run opsAssassinated).merlin_id = some 100 ∧
    (run opsAssassinated).vote_track = 0 ∧
    ((run opsAssassinated).missions.filter (fun m => m == MissionResult.FAIL)).length = 0 ∧
    ((run opsAssassinated).missions.filter (fun m => m == MissionResult.SUCCESS)).length = 3 ∧
    is_assassination_successful (run opsAssassinated) 100 = true ∧
    get_game_winner (run opsAssassinated) = some Team.good := by
  decide

/-- C2 counterexample: the claim says `addParticipant` fails whenever
the match is not in the Lobby phase; but in a reachable five-player
match in TeamProposal, adding a sixth, fresh participant returns
success and appends. -/
theorem add_player_succeeds_outside_lobby :
    gTP.state = GameState.TEAM_PROPOSAL ∧
    (add_player gTP 200 (pname 200)).1 = true ∧
    (add_player gTP 200 (pname 200)).2.players.length = 6 := by
  decide

/-- C3: the claim says an `assignRoles` call with a bad roster size or
outside Lobby is rejected through the ordinary result without crashing
and leaves the state unchanged.  The code instead (a) raises
`ValueError` (modelled `none`) on a 4-player roster, and (b) performs a
second assignment without any phase check: called again on a match
already in TeamProposal it returns normally, stays in TeamProposal and
moves Merlin from player 100 to player 101. -/
theorem assign_roles_raise_and_no_phase_guard :
    assign_roles (run (addsOps.take 4)) poolA = none ∧
    gTP.state = GameState.TEAM_PROPOSAL ∧
    gTP.merlin_id = some 100 ∧
    (assign_roles gTP poolB).map (fun g => (g.state, g.merlin_id)) =
      some (GameState.TEAM_PROPOSAL, some 101) := by
  decide

/-- C9 counterexample: the claim says `proposed_team` is empty in the
Lobby, TeamProposal, Assassination and Finished phases of every
reachable state.  One concrete match run refutes three of the four
phases: after three mission successes the phase is Assassination with
the third mission's team still recorded; the assassination moves to
Finished without clearing it; and a further (unguarded) `assign_roles`
returns to TeamProposal still without clearing it. -/
theorem proposed_team_nonempty_reachable :
    ((run opsToAssassination).state = GameState.ASSASSINATION ∧
      (run opsToAssassination).proposed_team ≠ []) ∧
    ((run opsAssassinated).state = GameState.FINISHED ∧
      (run opsAssassinated).proposed_team ≠ []) ∧
    ((run opsReassigned).state = GameState.TEAM_PROPOSAL ∧
      (run opsReassigned).proposed_team ≠ []) := by
  decide

/-- C10: in a reachable five-player match in TeamProposal whose first
mission needs a team of 2, the leader's proposal listing the same
roster id twice is accepted (only the length and roster-membership of
each id are checked), and the stored proposed team is the duplicated
list. -/
theorem propose_team_duplicate_members :
    gTP.state = GameState.TEAM_PROPOSAL ∧
    get_mission_size gTP = some 2 ∧
    (propose_team gTP 100 [100, 100]).map
        (fun r => (r.1, r.2.proposed_team, r.2.state)) =
      some (true, ([100, 100] : List Nat), GameState.TEAM_VOTING) := by
  decide

/-- Counting a predicate on the right components of a positional zip of
equal-length lists counts the predicate on the right list. -/
theorem countP_zip_right {α β : Type} (q : β → Bool) :
    ∀ (ps : List α) (rs : List β), ps.length = rs.length →
      (ps.zip rs).countP (fun x => q x.2) = rs.countP q
  | [], [] => by simp
  | [], _ :: _ => by intro h; simp at h
  | _ :: _, [] => by intro h; simp at h
  | a :: ps, b :: rs => by
    intro h
    simp only [List.zip_cons_cons, List.countP_cons]
    rw [countP_zip_right q ps rs (by simpa using h)]

/-- The role pool built for a legal player count has one slot per
player, the table's alignment split, and exactly one Merlin and one
Assassin. -/
theorem role_pool_spec (n : Nat) (h5 : 5 ≤ n) (h10 : n ≤ 10) :
    (role_pool n).length = n ∧
    (role_pool n).countP (fun r => roleTeam r == Team.good) = (PLAYER_COUNTS n).1 ∧
    (role_pool n).countP (fun r => roleTeam r == Team.evil) = (PLAYER_COUNTS n).2 ∧
    (role_pool n).countP (fun r => r == Role.MERLIN) = 1 ∧
    (role_pool n).countP (fun r => r == Role.ASSASSIN) = 1 := by
  interval_cases n <;> decide

/-- Over the legal player counts and rounds, the two-fail table in
`config.py` holds exactly the slots with at least 7 players and
1-based round 4. -/
theorem requires_two_fails_iff (n r : Nat) (h5 : 5 ≤ n) (h10 : n ≤ 10)
    (hr1 : 1 ≤ r) (hr5 : r ≤ 5) :
    requires_two_fails n r = true ↔ 7 ≤ n ∧ r = 4 := by
  interval_cases n <;> interval_cases r <;> decide

/-- A team-vote tally never lands in the Lobby phase. -/
theorem process_team_vote_state_ne_lobby (g : AvalonGame) :
    (process_team_vote g).state ≠ GameState.LOBBY := by
  unfold process_team_vote
  dsimp only
  split
  · simp
  · split <;> simp

/-- A mission-vote tally never lands in the Lobby phase. -/
theorem process_mission_vote_state_ne_lobby (g : AvalonGame) :
    (process_mission_vote g).state ≠ GameState.LOBBY := by
  unfold process_mission_vote
  dsimp only
  split_ifs <;> simp

/-- A successful role assignment lands in the TeamProposal phase. -/
theorem assign_roles_some_state {g : AvalonGame} {pool : List Role} {g' : AvalonGame}
    (h : assign_roles g pool = some g') : g'.state = GameState.TEAM_PROPOSAL := by
  unfold assign_roles at h
  split_ifs at h
  rw [Option.some_inj] at h
  subst h
  rfl

/-- A non-crashing `propose_team` call either rejects (returning the
state unchanged) or lands in the TeamVoting phase. -/
theorem propose_team_some {g : AvalonGame} {lid : Nat} {team : List Nat}
    {r : Bool × AvalonGame} (h : propose_team g lid team = some r) :
    r.2 = g ∨ r.2.state = GameState.TEAM_VOTING := by
  unfold propose_team at h
  split at h
  · left; rw [Option.some_inj] at h; subst h; rfl
  · split at h
    · simp at h
    · split at h
      · left; rw [Option.some_inj] at h; subst h; rfl
      · split at h
        · simp at h
        · split at h
          · left; rw [Option.some_inj] at h; subst h; rfl
          · split at h
            · left; rw [Option.some_inj] at h; subst h; rfl
            · right; rw [Option.some_inj] at h; subst h; rfl

/-- A team-vote call either leaves the state unchanged or lands outside
the Lobby phase. -/
theorem vote_team_snd (g : AvalonGame) (uid : Nat) (approve : Bool) :
    (vote_team g uid approve).2 = g ∨
    (vote_team g uid approve).2.state ≠ GameState.LOBBY := by
  unfold vote_team
  by_cases h1 : g.state ≠ GameState.TEAM_VOTING
  · rw [if_pos h1]; left; rfl
  · rw [if_neg h1]
    by_cases h2 : ¬ (g.players.any (fun p => p.user_id == uid)) = true
    · rw [if_pos h2]; left; rfl
    · rw [if_neg h2]
      dsimp only
      by_cases h4 :
          ((dictInsert g.team_votes uid approve).length == g.players.length) = true
      · rw [if_pos h4]; right; exact process_team_vote_state_ne_lobby _
      · rw [if_neg h4]; right
        rw [not_not] at h1
        show g.state ≠ GameState.LOBBY
        rw [h1]; decide

/-- A non-crashing mission-vote call either leaves the state unchanged
or lands outside the Lobby phase. -/
theorem vote_mission_some {g : AvalonGame} {uid : Nat} {success : Bool}
    {r : Bool × AvalonGame} (h : vote_mission g uid success = some r) :
    r.2 = g ∨ r.2.state ≠ GameState.LOBBY := by
  unfold vote_mission at h
  by_cases h1 : g.state ≠ GameState.MISSION
  · rw [if_pos h1] at h; left; rw [Option.some_inj] at h; subst h; rfl
  · rw [if_neg h1] at h
    by_cases h2 : ¬ (g.proposed_team.contains uid) = true
    · rw [if_pos h2] at h; left; rw [Option.some_inj] at h; subst h; rfl
    · rw [if_neg h2] at h
      split at h
      · simp at h
      · rename_i player hfind
        by_cases h3 : (¬ success = true ∧ player.is_good = true)
        · rw [if_pos h3] at h; left; rw [Option.some_inj] at h; subst h; rfl
        · rw [if_neg h3] at h
          dsimp only at h
          by_cases h4 :
              ((dictInsert g.mission_votes uid success).length ==
                g.proposed_team.length) = true
          · rw [if_pos h4] at h; right; rw [Option.some_inj] at h; subst h
            exact process_mission_vote_state_ne_lobby _
          · rw [if_neg h4] at h; right; rw [Option.some_inj] at h; subst h
            rw [not_not] at h1
            show g.state ≠ GameState.LOBBY
            rw [h1]; decide

/-- Any single operation observed in the Lobby phase afterwards has
left the proposed team untouched and started from the Lobby phase. -/
theorem apply_op_lobby (g : AvalonGame) (op : Op) :
    (apply_op g op).state = GameState.LOBBY →
    (apply_op g op).proposed_team = g.proposed_team ∧ g.state = GameState.LOBBY := by
  cases op with
  | addPlayer uid name =>
    simp only [apply_op]
    unfold add_player
    split_ifs <;> (intro h'; exact ⟨rfl, h'⟩)
  | removePlayer uid =>
    simp only [apply_op]
    unfold remove_player
    split_ifs <;> (intro h'; exact ⟨rfl, h'⟩)
  | assignRoles pool =>
    simp only [apply_op]
    cases hres : assign_roles g pool with
    | none => intro h'; exact ⟨rfl, h'⟩
    | some g' =>
      intro h'
      rw [assign_roles_some_state hres] at h'
      exact absurd h' (by decide)
  | proposeTeam lid team =>
    simp only [apply_op]
    cases hres : propose_team g lid team with
    | none => intro h'; exact ⟨rfl, h'⟩
    | some r =>
      intro h'
      have hs : r.2.state = GameState.LOBBY := h'
      rcases propose_team_some hres with hEq | hSt
      · refine ⟨?_, ?_⟩
        · show r.2.proposed_team = g.proposed_team
          rw [hEq]
        · rw [← hEq]; exact hs
      · rw [hSt] at hs
        exact absurd hs (by decide)
  | voteTeam uid approve =>
    simp only [apply_op]
    rcases vote_team_snd g uid approve with hEq | hSt
    · rw [hEq]; intro h'; exact ⟨rfl, h'⟩
    · intro h'; exact absurd h' hSt
  | voteMission uid success =>
    simp only [apply_op]
    cases hres : vote_mission g uid success with
    | none => intro h'; exact ⟨rfl, h'⟩
    | some r =>
      intro h'
      have hs : r.2.state = GameState.LOBBY := h'
      rcases vote_mission_some hres with hEq | hSt
      · refine ⟨?_, ?_⟩
        · show r.2.proposed_team = g.proposed_team
          rw [hEq]
        · rw [← hEq]; exact hs
      · exact absurd hs hSt
  | doAssassinate aid tid =>
    simp only [apply_op]
    unfold assassinate
    split_ifs <;> intro h' <;>
      first
        | exact ⟨rfl, h'⟩
        | exact h'.elim

/-- Running operations preserves the Lobby invariant that the proposed
team is empty. -/
theorem runFrom_lobby_inv (ops : List Op) (g : AvalonGame)
    (h : g.state = GameState.LOBBY → g.proposed_team = []) :
    (runFrom g ops).state = GameState.LOBBY → (runFrom g ops).proposed_team = [] := by
  induction ops generalizing g with
  | nil => exact h
  | cons op ops ih =>
    exact ih (apply_op g op) (fun h' =>
      ((apply_op_lobby g op h').1).trans (h ((apply_op_lobby g op h').2)))

/-- C9 (amended): in every reachable match state the proposed team is
empty whenever the phase is Lobby; the engine clears it only on a
proposal rejection and when continuing to the next round, so it can
stay non-empty in the Assassination, Finished, and re-entered
TeamProposal phases. -/
theorem lobby_proposed_team_empty (ops : List Op)
    (h : (run ops).state = GameState.LOBBY) :
    (run ops).proposed_team = [] :=
  runFrom_lobby_inv ops newGame (fun _ => rfl) h

/-- Witness for C9 (amended): a fresh match is in the Lobby phase with
an empty proposed team. -/
theorem lobby_proposed_team_empty_witness :
    (run []).state = GameState.LOBBY ∧ (run []).proposed_team = [] :=
  ⟨by decide, lobby_proposed_team_empty [] (by decide)⟩

/-- C2 (amended): `add_player` fails, leaving the state unchanged,
exactly when the roster already holds 10 participants or the id is
already present; otherwise (in any phase) it appends the participant
and returns success. -/
theorem add_player_spec (g : AvalonGame) (uid : Nat) (name : String) :
    (10 ≤ g.players.length ∨ g.players.any (fun p => p.user_id == uid) = true →
      add_player g uid name = (false, g)) ∧
    (g.players.length < 10 →
      g.players.any (fun p => p.user_id == uid) = false →
      add_player g uid name =
        (true, { g with
          players := g.players ++ [{ user_id := uid, username := name }] })) := by
  constructor
  · intro h
    unfold add_player
    rcases h with h | h
    · rw [if_pos h]
    · by_cases h10 : 10 ≤ g.players.length
      · rw [if_pos h10]
      · rw [if_neg h10, if_pos h]
  · intro h10 hdup
    unfold add_player
    rw [if_neg (by omega : ¬ 10 ≤ g.players.length),
      if_neg (by simp [hdup])]

/-- Witness for C2 (amended): adding a first participant to a fresh
match succeeds and appends it. -/
theorem add_player_spec_witness :
    add_player newGame 1 (pname 1) =
      (true, { newGame with
        players := newGame.players ++ [{ user_id := 1, username := pname 1 }] }) :=
  (add_player_spec newGame 1 (pname 1)).2 (by decide) (by decide)

/-- Counting an updated-player predicate over a positional role
assignment counts the corresponding role predicate over the pool. -/
theorem countP_assigned (ps : List Player) (pool : List Role)
    (q : Player → Bool) (q' : Role → Bool)
    (hq : ∀ (p : Player) (r : Role),
      q { p with role := some r, team := some (roleTeam r) } = q' r)
    (hlen : ps.length = pool.length) :
    ((ps.zip pool).map
        (fun x => { x.1 with role := some x.2, team := some (roleTeam x.2) })).countP q
      = pool.countP q' := by
  rw [List.countP_map]
  have hfun : (q ∘ fun x : Player × Role =>
      { x.1 with role := some x.2, team := some (roleTeam x.2) }) =
      fun x : Player × Role => q' x.2 := by
    funext x
    exact hq x.1 x.2
  rw [hfun]
  exact countP_zip_right q' ps pool hlen

/-- C4: with a legal roster size and any shuffle of the role pool,
`assign_roles` succeeds and yields exactly the PLAYER_COUNTS split of
good and evil participants, exactly one Merlin-holder, and exactly one
Assassin-holder. -/
theorem assign_roles_counts (g : AvalonGame) (pool : List Role)
    (h5 : 5 ≤ g.players.length) (h10 : g.players.length ≤ 10)
    (hperm : pool.Perm (role_pool g.players.length)) :
    (assign_roles g pool).map (fun g' =>
      (g'.players.countP (fun p => p.team == some Team.good),
        g'.players.countP (fun p => p.team == some Team.evil),
        g'.players.countP (fun p => p.role == some Role.MERLIN),
        g'.players.countP (fun p => p.role == some Role.ASSASSIN))) =
      some ((PLAYER_COUNTS g.players.length).1,
        (PLAYER_COUNTS g.players.length).2, 1, 1) := by
  have hcan : can_start_game g = true := decide_eq_true ⟨h5, h10⟩
  have hlen : g.players.length = pool.length := by
    rw [hperm.length_eq, (role_pool_spec _ h5 h10).1]
  unfold assign_roles
  rw [if_neg (by simp [hcan])]
  dsimp only [Option.map_some']
  rw [Option.some_inj]
  simp only [Prod.mk.injEq]
  refine ⟨?_, ?_, ?_, ?_⟩
  · rw [countP_assigned g.players pool _ (fun r => roleTeam r == Team.good)
      (fun p r => rfl) hlen, hperm.countP_eq]
    exact (role_pool_spec _ h5 h10).2.1
  · rw [countP_assigned g.players pool _ (fun r => roleTeam r == Team.evil)
      (fun p r => rfl) hlen, hperm.countP_eq]
    exact (role_pool_spec _ h5 h10).2.2.1
  · rw [countP_assigned g.players pool _ (fun r => r == Role.MERLIN)
      (fun p r => rfl) hlen, hperm.countP_eq]
    exact (role_pool_spec _ h5 h10).2.2.2.1
  · rw [countP_assigned g.players pool _ (fun r => r == Role.ASSASSIN)
      (fun p r => rfl) hlen, hperm.countP_eq]
    exact (role_pool_spec _ h5 h10).2.2.2.2

/-- Witness for C4: the five-player roster with the identity shuffle
gets 3 good, 2 evil, one Merlin, one Assassin. -/
theorem assign_roles_counts_witness :
    (assign_roles (run addsOps) poolA).map (fun g' =>
      (g'.players.countP (fun p => p.team == some Team.good),
        g'.players.countP (fun p => p.team == some Team.evil),
        g'.players.countP (fun p => p.role == some Role.MERLIN),
        g'.players.countP (fun p => p.role == some Role.ASSASSIN))) =
      some ((PLAYER_COUNTS (run addsOps).players.length).1,
        (PLAYER_COUNTS (run addsOps).players.length).2, 1, 1) :=
  assign_roles_counts (run addsOps) poolA (by decide) (by decide) (List.Perm.refl _)

/-- C5: a roster member's team ballot that completes the ballot set
fires the tally exactly then: with approvals at least floor(N/2)+1 the
rejection streak resets to 0 and the phase becomes Mission (same
round, mission ballots cleared); otherwise the streak increments, and
either it reaches 5 — phase Finished with the winner query answering
evil regardless of the mission track — or the leader index advances by
one modulo N and the phase returns to TeamProposal with the same
round. -/
theorem vote_team_tally (g : AvalonGame) (uid : Nat) (approve : Bool)
    (hst : g.state = GameState.TEAM_VOTING)
    (hmem : g.players.any (fun p => p.user_id == uid) = true)
    (hfull : (dictInsert g.team_votes uid approve).length = g.players.length) :
    (vote_team g uid approve).1 = true ∧
    (g.players.length / 2 + 1 ≤
        ((dictInsert g.team_votes uid approve).filter (fun q => q.2)).length →
      (vote_team g uid approve).2.vote_track = 0 ∧
      (vote_team g uid approve).2.state = GameState.MISSION ∧
      (vote_team g uid approve).2.mission_votes = [] ∧
      (vote_team g uid approve).2.current_round = g.current_round) ∧
    (((dictInsert g.team_votes uid approve).filter (fun q => q.2)).length <
        g.players.length / 2 + 1 →
      (vote_team g uid approve).2.vote_track = g.vote_track + 1 ∧
      (5 ≤ g.vote_track + 1 →
        (vote_team g uid approve).2.state = GameState.FINISHED ∧
        get_game_winner (vote_team g uid approve).2 = some Team.evil) ∧
      (g.vote_track + 1 < 5 →
        (vote_team g uid approve).2.state = GameState.TEAM_PROPOSAL ∧
        (vote_team g uid approve).2.proposed_team = [] ∧
        (vote_team g uid approve).2.current_leader_index =
          (g.current_leader_index + 1) % g.players.length ∧
        (vote_team g uid approve).2.current_round = g.current_round)) := by
  unfold vote_team
  rw [if_neg (by simp [hst]), if_neg (by simp [hmem])]
  try dsimp only
  rw [if_pos (by simp [hfull])]
  refine ⟨rfl, ?_, ?_⟩
  · intro happ
    unfold process_team_vote
    try dsimp only
    rw [if_pos happ]
    exact ⟨rfl, rfl, rfl, rfl⟩
  · intro hrej
    unfold process_team_vote
    try dsimp only
    rw [if_neg (Nat.not_le.mpr hrej)]
    try dsimp only
    refine ⟨by split <;> rfl, ?_, ?_⟩
    · intro h5
      rw [if_pos h5]
      refine ⟨rfl, ?_⟩
      unfold get_game_winner
      rw [if_neg (by simp)]
      try dsimp only
      by_cases hev : 3 ≤ (g.missions.filter (fun m => m == MissionResult.FAIL)).length
      · rw [if_pos hev]
      · rw [if_neg hev, if_pos h5]
    · intro hlt
      rw [if_neg (Nat.not_le.mpr hlt)]
      exact ⟨rfl, rfl, rfl, rfl⟩

/-- Witness for C5: in `gV` (four approvals recorded), player 104's
approval completes the ballot set; approvals reach 5 ≥ 3 = floor(5/2)+1
and the match enters the Mission phase with a reset streak. -/
theorem vote_team_tally_witness :
    gV.state = GameState.TEAM_VOTING ∧
    (vote_team gV 104 true).1 = true ∧
    (vote_team gV 104 true).2.vote_track = 0 ∧
    (vote_team gV 104 true).2.state = GameState.MISSION :=
  have h := vote_team_tally gV 104 true (by decide) (by decide) (by decide)
  ⟨by decide, h.1, (h.2.1 (by decide)).1, (h.2.1 (by decide)).2.1⟩

/-- C6: in the Mission phase, a good-aligned member of the proposed
team casting a sabotage ballot is rejected with the whole state (in
particular `mission_votes`) unchanged, while an evil-aligned member's
sabotage ballot is accepted. -/
theorem vote_mission_good_cannot_sabotage (g : AvalonGame) (uid : Nat) (p : Player)
    (hst : g.state = GameState.MISSION)
    (hteam : g.proposed_team.contains uid = true)
    (hfind : g.players.find? (fun q => q.user_id == uid) = some p) :
    (p.is_good = true → vote_mission g uid false = some (false, g)) ∧
    (p.is_evil = true →
      (vote_mission g uid false).map (fun r => r.1) = some true) := by
  constructor
  · intro hgood
    simp [vote_mission, hst, hteam, hfind, hgood]
  · intro hevil
    have hgood : p.is_good = false := by
      unfold Player.is_evil at hevil
      unfold Player.is_good
      rw [beq_iff_eq] at hevil
      rw [hevil]
      decide
    simp only [vote_mission, hst, hteam, hfind, hgood]
    simp
    split <;> simp

/-- Witness for C6: in `gM` (team [100, 104]), Merlin 100's sabotage
ballot is rejected with the state unchanged, and Minion 104's sabotage
ballot is accepted. -/
theorem vote_mission_good_cannot_sabotage_witness :
    vote_mission gM 100 false = some (false, gM) ∧
    (vote_mission gM 104 false).map (fun r => r.1) = some true :=
  ⟨(vote_mission_good_cannot_sabotage gM 100
      { user_id := 100, username := pname 100
        role := some Role.MERLIN, team := some Team.good }
      (by decide) (by decide) (by decide)).1 (by decide),
    (vote_mission_good_cannot_sabotage gM 104
      { user_id := 104, username := pname 104
        role := some Role.MINION, team := some Team.evil }
      (by decide) (by decide) (by decide)).2 (by decide)⟩

/-- C7: when the mission tally fires, the outcome written into slot
`current_round - 1` is Failed exactly when the sabotage-ballot count
reaches the required-fails threshold, and over the legal player counts
and rounds that threshold is 2 exactly on the double-fail slot (round
4 with at least 7 players) and 1 otherwise. -/
theorem process_mission_vote_outcome (g : AvalonGame)
    (hlen : g.missions.length = 5)
    (h5 : 5 ≤ g.players.length) (h10 : g.players.length ≤ 10)
    (hr1 : 1 ≤ g.current_round) (hr5 : g.current_round ≤ 5) :
    (process_mission_vote g).missions[g.current_round - 1]? =
      some (if (if 7 ≤ g.players.length ∧ g.current_round = 4 then 2 else 1) ≤
          (g.mission_votes.filter (fun q => ¬ q.2)).length
        then MissionResult.FAIL else MissionResult.SUCCESS) := by
  have hidx : g.current_round - 1 < g.missions.length := by omega
  have hreq : (if requires_two_fails g.players.length g.current_round then 2 else 1) =
      (if 7 ≤ g.players.length ∧ g.current_round = 4 then 2 else 1) := by
    by_cases h : 7 ≤ g.players.length ∧ g.current_round = 4
    · rw [if_pos h,
        if_pos ((requires_two_fails_iff _ _ h5 h10 hr1 hr5).mpr h)]
    · rw [if_neg h,
        if_neg (fun hh => h ((requires_two_fails_iff _ _ h5 h10 hr1 hr5).mp hh))]
  unfold process_mission_vote
  dsimp only
  rw [hreq]
  split_ifs <;> rw [List.getElem?_set_self hidx]

/-- Witness for C7: eight players, round 4 (the double-fail slot), one
sabotage ballot out of two: the recorded outcome is Succeeded since
1 < 2. -/
theorem process_mission_vote_outcome_witness :
    gC7.missions.length = 5 ∧
    (process_mission_vote gC7).missions[gC7.current_round - 1]? =
      some (if (if 7 ≤ gC7.players.length ∧ gC7.current_round = 4 then 2 else 1) ≤
          (gC7.mission_votes.filter (fun q => ¬ q.2)).length
        then MissionResult.FAIL else MissionResult.SUCCESS) :=
  ⟨by decide, process_mission_vote_outcome gC7
    (by decide) (by decide) (by decide) (by decide) (by decide)⟩

/-- C8: in a match whose player alignments are derived from their
roles, the extra visibility disclosed to the Merlin-holder is exactly
the evil-aligned participants whose role is not Mordred, and every
listed participant is neither a Mordred-holder, nor the Merlin-holder,
nor good-aligned. -/
theorem merlin_known_evil (g : AvalonGame) (shuffle : List String → List String)
    (uid : Nat) (p : Player) (info : RoleInfo)
    (hfind : g.players.find? (fun q => q.user_id == uid) = some p)
    (hrole : p.role = some Role.MERLIN)
    (hcons : ∀ q ∈ g.players, q.team = q.role.map roleTeam)
    (hinfo : get_role_info_for_player g shuffle uid = some info) :
    info.known_evil = some
      ((g.players.filter
        (fun q => q.is_evil ∧ ¬ q.role == some Role.MORDRED)).map
        (fun q => q.username)) ∧
    ∀ q ∈ g.players.filter
        (fun q => q.is_evil ∧ ¬ q.role == some Role.MORDRED),
      q.role ≠ some Role.MORDRED ∧ q.role ≠ some Role.MERLIN ∧
        q.is_good = false := by
  constructor
  · unfold get_role_info_for_player at hinfo
    split at hinfo
    · exact absurd hinfo (by simp)
    · rename_i p' hfind'
      rw [hfind] at hfind'
      injection hfind' with hpp
      subst hpp
      split at hinfo
      · exact absurd hinfo (by simp)
      · rename_i r hr
        rw [hrole] at hr
        injection hr with hr
        subst hr
        dsimp only at hinfo
        rw [if_pos (by decide : (Role.MERLIN == Role.MERLIN) = true)] at hinfo
        rw [Option.some_inj] at hinfo
        rw [← hinfo]
  · intro q hq
    rw [List.mem_filter] at hq
    obtain ⟨hqmem, hqpred⟩ := hq
    obtain ⟨hev, hnm⟩ : q.is_evil = true ∧ ¬ q.role = some Role.MORDRED := by
      simpa using hqpred
    refine ⟨hnm, ?_, ?_⟩
    · intro hqM
      have hteam := hcons q hqmem
      rw [hqM] at hteam
      unfold Player.is_evil at hev
      rw [hteam] at hev
      exact absurd hev (by decide)
    · unfold Player.is_evil at hev
      unfold Player.is_good
      rw [beq_iff_eq] at hev
      rw [hev]
      decide

/-- Witness for C8: in `gTP` the Merlin-holder 100 is shown exactly the
usernames of the two evil players 101 and 104 (neither holds Mordred,
Merlin, or a good-aligned role). -/
theorem merlin_known_evil_witness :
    infoM.known_evil = some
      ((gTP.players.filter
        (fun q => q.is_evil ∧ ¬ q.role == some Role.MORDRED)).map
        (fun q => q.username)) :=
  (merlin_known_evil gTP id 100 pM infoM
    (by decide) (by decide) (by decide) (by decide)).1

end Avalon
